import Mathlib

/-!
# explerror

A shallow embedding of the Go package explerror (error.model.go, explerror.go).

The package keeps two package-level variables, logger and send, configured by
New and Default, and exposes one operation per HTTP error category; every
category operation funnels into sendError.

Effects are recorded as a chronological list of events: formatted text handed to
a logger, method calls on a response writer, and invocations of a caller-supplied
send function. A nil dereference is recorded as a panic.
-/

namespace Explerror

/-! ## Data model -/

/-- Error record of error.model.go: StatusCode int with JSON key statusCode,
Message string with JSON key message, declared in that order. -/
structure Error where
  StatusCode : Int
  Message : String
deriving DecidableEq, Repr

/-- A non-nil Go error value; Error is the text returned by its Error() method. -/
structure GoError where
  Error : String
deriving DecidableEq, Repr

/-- Go errors.New. -/
def errorsNew (text : String) : GoError := ⟨text⟩

/-- A non-nil pointer to a log.Logger. std is the logger returned by log.Default();
user n is any other logger. -/
inductive Logger where
  | std
  | user (id : Nat)
deriving DecidableEq, Repr

/-- Go log.Default(). -/
def logDefault : Logger := Logger.std

/-- An http.ResponseWriter, identified by the object it denotes. -/
structure ResponseWriter where
  id : Nat
deriving DecidableEq, Repr

/-- A non-nil caller-supplied function value of type
func(w http.ResponseWriter, status int, data *Error) error. Its body is outside the
package; an invocation is recorded as an event. -/
structure SendFunction where
  id : Nat
deriving DecidableEq, Repr

/-- Observable effects, in the order the code performs them. -/
inductive Event where
  | logPrintf (l : Logger) (text : String)
  | setHeader (w : ResponseWriter) (key value : String)
  | writeHeader (w : ResponseWriter) (status : Int)
  | write (w : ResponseWriter) (body : String)
  | sendCall (f : SendFunction) (w : ResponseWriter) (status : Int) (data : Error)
deriving DecidableEq, Repr

/-- How a call ends: it returns, or it panics; either way with the events performed
up to that point. -/
inductive Outcome where
  | returned (trace : List Event)
  | panicked (trace : List Event)
deriving DecidableEq, Repr

/-- The value held by the package variable send, when it is not nil: the function
literal of explerror.go lines 10 to 21, or a function supplied through Options. -/
inductive Sender where
  | builtin
  | custom (f : SendFunction)
deriving DecidableEq, Repr

/-- The two package variables of explerror.go: logger (a possibly nil *log.Logger) and
send (a possibly nil func value). -/
structure Package where
  logger : Option Logger
  send : Option Sender
deriving DecidableEq, Repr

/-- Values of the package variables at program start: logger is nil, send is the
built-in function literal. -/
def initial : Package := ⟨none, some Sender.builtin⟩

/-- Options of explerror.go: Debug bool, Log *log.Logger, SendFunction func. -/
structure Options where
  Debug : Bool
  Log : Option Logger
  SendFunction : Option SendFunction
deriving DecidableEq, Repr

/-! ## encoding/json on the Error record -/

/-- A JSON serializer for Error records: json.Marshal restricted to *Error, returning
the bytes or a failure. -/
abbrev Marshal := Error → Except String String

/-- Lower-case hexadecimal digit. -/
def hexDigit (n : Nat) : Char :=
  if n % 16 < 10 then Char.ofNat (48 + n % 16) else Char.ofNat (87 + n % 16)

/-- Four hexadecimal digits after a backslash and u. -/
def unicodeEscape (n : Nat) : List Char :=
  [Char.ofNat 92, Char.ofNat 117, hexDigit (n / 4096), hexDigit (n / 256),
   hexDigit (n / 16), hexDigit n]

/-- Escaping of one character inside a JSON string as done by encoding/json with HTML
escaping on (the json.Marshal default): quote and backslash get a backslash, the
control characters below 0x20 get their short form or a unicode escape, the characters
less-than, greater-than, ampersand and U+2028, U+2029 get a unicode escape. Backspace
and form feed take the short form of Go 1.22 and later. A message is a sequence of
Unicode characters here, so the replacement of invalid UTF-8 bytes does not arise. -/
def escapeChar (c : Char) : List Char :=
  let n := c.toNat
  if n = 34 then [Char.ofNat 92, Char.ofNat 34]
  else if n = 92 then [Char.ofNat 92, Char.ofNat 92]
  else if n = 8 then [Char.ofNat 92, Char.ofNat 98]
  else if n = 12 then [Char.ofNat 92, Char.ofNat 102]
  else if n = 10 then [Char.ofNat 92, Char.ofNat 110]
  else if n = 13 then [Char.ofNat 92, Char.ofNat 114]
  else if n = 9 then [Char.ofNat 92, Char.ofNat 116]
  else if n < 32 then unicodeEscape n
  else if n = 60 ∨ n = 62 ∨ n = 38 then unicodeEscape n
  else if n = 8232 ∨ n = 8233 then unicodeEscape n
  else [c]

/-- A JSON string literal. -/
def quoteString (s : String) : String :=
  String.mk ([Char.ofNat 34] ++ (s.data.map escapeChar).flatten ++ [Char.ofNat 34])

/-- Decimal rendering of a Go int. -/
def itoa (n : Int) : String := toString n

/-- Text produced by json.Marshal on a pointer to an Error record: an object with the
keys statusCode and message in declaration order. -/
def encodeError (data : Error) : String :=
  "\x7b\"statusCode\":" ++ itoa data.StatusCode ++ ",\"message\":" ++
    quoteString data.Message ++ "\x7d"

/-- Go json.Marshal on an Error record; an int and a string always serialize. -/
def jsonMarshal : Marshal := fun data => Except.ok (encodeError data)

/-! ## explerror.go -/

/-- The function literal initially stored in send (lines 10 to 21), over the serializer
it calls. Returns the Go error (none is nil) and the calls made on w. -/
def defaultSend (marshal : Marshal) (w : ResponseWriter) (status : Int) (data : Error) :
    Option String × List Event :=
  match marshal data with
  | Except.error err => (some err, [])
  | Except.ok js =>
    (none, [Event.setHeader w "Content-Type" "application/json",
            Event.writeHeader w status,
            Event.write w js])

/-- Events of calling the function stored in send. -/
def Sender.invoke (marshal : Marshal) (s : Sender) (w : ResponseWriter) (status : Int)
    (data : Error) : List Event :=
  match s with
  | Sender.builtin => (defaultSend marshal w status data).2
  | Sender.custom f => [Event.sendCall f w status data]

/-- New of explerror.go, lines 37 to 50. -/
def New (options : Options) (pkg : Package) : Package :=
  let pkg1 : Package :=
    match options.Log with
    | some l => ⟨some l, pkg.send⟩
    | none => pkg
  let pkg2 : Package :=
    if options.Debug && options.Log.isSome then ⟨some logDefault, pkg1.send⟩ else pkg1
  match options.SendFunction with
  | some f => ⟨pkg2.logger, some (Sender.custom f)⟩
  | none => pkg2

/-- Default of explerror.go, lines 53 to 59. -/
def Default (pkg : Package) : Package :=
  New ⟨false, none, none⟩ pkg

/-- Text of Printf with the format "%d: %s". -/
def formatLog (statusCode : Int) (message : String) : String :=
  itoa statusCode ++ ": " ++ message

/-- The function sendError of explerror.go, lines 62 to 71. Calling Printf on a nil
*log.Logger dereferences nil, and so does calling a nil func value. The error returned
by send is discarded. -/
def sendError (marshal : Marshal) (pkg : Package) (w : ResponseWriter) (statusCode : Int)
    (err : GoError) : Outcome :=
  match pkg.logger with
  | none => Outcome.panicked []
  | some l =>
    let logged := [Event.logPrintf l (formatLog statusCode err.Error)]
    let theError : Error := ⟨statusCode, err.Error⟩
    match pkg.send with
    | none => Outcome.panicked logged
    | some s => Outcome.returned (logged ++ s.invoke marshal w statusCode theError)

/-! ## Status constants of net/http used by the category operations -/

/-- Constant http.StatusNotModified of net/http. -/
def StatusNotModified : Int := 304

/-- Constant http.StatusBadRequest of net/http. -/
def StatusBadRequest : Int := 400

/-- Constant http.StatusUnauthorized of net/http. -/
def StatusUnauthorized : Int := 401

/-- Constant http.StatusPaymentRequired of net/http. -/
def StatusPaymentRequired : Int := 402

/-- Constant http.StatusForbidden of net/http. -/
def StatusForbidden : Int := 403

/-- Constant http.StatusNotFound of net/http. -/
def StatusNotFound : Int := 404

/-- Constant http.StatusMethodNotAllowed of net/http. -/
def StatusMethodNotAllowed : Int := 405

/-- Constant http.StatusNotAcceptable of net/http. -/
def StatusNotAcceptable : Int := 406

/-- Constant http.StatusProxyAuthRequired of net/http. -/
def StatusProxyAuthRequired : Int := 407

/-- Constant http.StatusConflict of net/http. -/
def StatusConflict : Int := 409

/-- Constant http.StatusGone of net/http. -/
def StatusGone : Int := 410

/-- Constant http.StatusLengthRequired of net/http. -/
def StatusLengthRequired : Int := 411

/-- Constant http.StatusPreconditionFailed of net/http. -/
def StatusPreconditionFailed : Int := 412

/-- Constant http.StatusRequestEntityTooLarge of net/http. -/
def StatusRequestEntityTooLarge : Int := 413

/-- Constant http.StatusRequestURITooLong of net/http. -/
def StatusRequestURITooLong : Int := 414

/-- Constant http.StatusUnsupportedMediaType of net/http. -/
def StatusUnsupportedMediaType : Int := 415

/-- Constant http.StatusRequestedRangeNotSatisfiable of net/http. -/
def StatusRequestedRangeNotSatisfiable : Int := 416

/-- Constant http.StatusExpectationFailed of net/http. -/
def StatusExpectationFailed : Int := 417

/-- Constant http.StatusUnprocessableEntity of net/http. -/
def StatusUnprocessableEntity : Int := 422

/-- Constant http.StatusLocked of net/http. -/
def StatusLocked : Int := 423

/-- Constant http.StatusFailedDependency of net/http. -/
def StatusFailedDependency : Int := 424

/-- Constant http.StatusTooEarly of net/http. -/
def StatusTooEarly : Int := 425

/-- Constant http.StatusUpgradeRequired of net/http. -/
def StatusUpgradeRequired : Int := 426

/-- Constant http.StatusPreconditionRequired of net/http. -/
def StatusPreconditionRequired : Int := 428

/-- Constant http.StatusRequestHeaderFieldsTooLarge of net/http. -/
def StatusRequestHeaderFieldsTooLarge : Int := 431

/-- Constant http.StatusUnavailableForLegalReasons of net/http. -/
def StatusUnavailableForLegalReasons : Int := 451

/-- Constant http.StatusInternalServerError of net/http. -/
def StatusInternalServerError : Int := 500

/-- Constant http.StatusNotImplemented of net/http. -/
def StatusNotImplemented : Int := 501

/-- Constant http.StatusServiceUnavailable of net/http. -/
def StatusServiceUnavailable : Int := 503

/-- Constant http.StatusGatewayTimeout of net/http. -/
def StatusGatewayTimeout : Int := 504

/-- Constant http.StatusHTTPVersionNotSupported of net/http. -/
def StatusHTTPVersionNotSupported : Int := 505

/-- Constant http.StatusVariantAlsoNegotiates of net/http. -/
def StatusVariantAlsoNegotiates : Int := 506

/-- Constant http.StatusInsufficientStorage of net/http. -/
def StatusInsufficientStorage : Int := 507

/-- Constant http.StatusLoopDetected of net/http. -/
def StatusLoopDetected : Int := 508

/-- Constant http.StatusNotExtended of net/http. -/
def StatusNotExtended : Int := 510

/-- Constant http.StatusNetworkAuthenticationRequired of net/http. -/
def StatusNetworkAuthenticationRequired : Int := 511

/-! ## Category operations, lines 73 to 251 -/

/-- The exported functions of explerror.go that take a response writer and an error,
in source order. -/
inductive Category where
  | VariantAlsoNegotiates
  | UpgradeRequired
  | UnsupportedMediaType
  | UnavailableForLegalReasons
  | ServiceUnavailable
  | RequestedRangeNotSatisfiable
  | RequestURITooLong
  | RequestHeaderFieldsTooLarge
  | RequestEntityTooLarge
  | TooEarly
  | ProxyAuthRequired
  | PreconditionRequired
  | PreconditionFailed
  | PaymentRequired
  | NotImplemented
  | NotExtended
  | NotAcceptable
  | NetworkAuthenticationRequired
  | MethodNotAllowed
  | LoopDetected
  | Locked
  | LengthRequired
  | InsufficientStorage
  | HTTPVersionNotSupported
  | Gone
  | FailedDependency
  | GatewayTimeout
  | NotModified
  | ExpectationFailed
  | BadData
  | BadRequest
  | Conflict
  | Forbidden
  | InternalServerError
  | NotFound
  | Unauthorized
deriving DecidableEq, Repr, Fintype

/-- The status constant each category operation passes to sendError. -/
def Category.status : Category → Int
  | Category.VariantAlsoNegotiates => StatusVariantAlsoNegotiates
  | Category.UpgradeRequired => StatusUpgradeRequired
  | Category.UnsupportedMediaType => StatusUnsupportedMediaType
  | Category.UnavailableForLegalReasons => StatusUnavailableForLegalReasons
  | Category.ServiceUnavailable => StatusServiceUnavailable
  | Category.RequestedRangeNotSatisfiable => StatusRequestedRangeNotSatisfiable
  | Category.RequestURITooLong => StatusRequestURITooLong
  | Category.RequestHeaderFieldsTooLarge => StatusRequestHeaderFieldsTooLarge
  | Category.RequestEntityTooLarge => StatusRequestEntityTooLarge
  | Category.TooEarly => StatusTooEarly
  | Category.ProxyAuthRequired => StatusProxyAuthRequired
  | Category.PreconditionRequired => StatusPreconditionRequired
  | Category.PreconditionFailed => StatusPreconditionFailed
  | Category.PaymentRequired => StatusPaymentRequired
  | Category.NotImplemented => StatusNotImplemented
  | Category.NotExtended => StatusNotExtended
  | Category.NotAcceptable => StatusNotAcceptable
  | Category.NetworkAuthenticationRequired => StatusNetworkAuthenticationRequired
  | Category.MethodNotAllowed => StatusMethodNotAllowed
  | Category.LoopDetected => StatusLoopDetected
  | Category.Locked => StatusLocked
  | Category.LengthRequired => StatusLengthRequired
  | Category.InsufficientStorage => StatusInsufficientStorage
  | Category.HTTPVersionNotSupported => StatusHTTPVersionNotSupported
  | Category.Gone => StatusGone
  | Category.FailedDependency => StatusFailedDependency
  | Category.GatewayTimeout => StatusGatewayTimeout
  | Category.NotModified => StatusNotModified
  | Category.ExpectationFailed => StatusExpectationFailed
  | Category.BadData => StatusUnprocessableEntity
  | Category.BadRequest => StatusBadRequest
  | Category.Conflict => StatusConflict
  | Category.Forbidden => StatusForbidden
  | Category.InternalServerError => StatusInternalServerError
  | Category.NotFound => StatusNotFound
  | Category.Unauthorized => StatusUnauthorized

/-- The status number written in the doc comment above each category operation. -/
def Category.docStatus : Category → Int
  | Category.VariantAlsoNegotiates => 506
  | Category.UpgradeRequired => 426
  | Category.UnsupportedMediaType => 415
  | Category.UnavailableForLegalReasons => 451
  | Category.ServiceUnavailable => 503
  | Category.RequestedRangeNotSatisfiable => 416
  | Category.RequestURITooLong => 414
  | Category.RequestHeaderFieldsTooLarge => 431
  | Category.RequestEntityTooLarge => 413
  | Category.TooEarly => 425
  | Category.ProxyAuthRequired => 407
  | Category.PreconditionRequired => 428
  | Category.PreconditionFailed => 412
  | Category.PaymentRequired => 402
  | Category.NotImplemented => 501
  | Category.NotExtended => 510
  | Category.NotAcceptable => 406
  | Category.NetworkAuthenticationRequired => 511
  | Category.MethodNotAllowed => 405
  | Category.LoopDetected => 508
  | Category.Locked => 423
  | Category.LengthRequired => 411
  | Category.InsufficientStorage => 507
  | Category.HTTPVersionNotSupported => 505
  | Category.Gone => 410
  | Category.FailedDependency => 424
  | Category.GatewayTimeout => 504
  | Category.NotModified => 304
  | Category.ExpectationFailed => 417
  | Category.BadData => 422
  | Category.BadRequest => 400
  | Category.Conflict => 409
  | Category.Forbidden => 403
  | Category.InternalServerError => 500
  | Category.NotFound => 404
  | Category.Unauthorized => 401

/-- Every category operation, in source order. -/
def allCategories : List Category :=
  [Category.VariantAlsoNegotiates,
   Category.UpgradeRequired,
   Category.UnsupportedMediaType,
   Category.UnavailableForLegalReasons,
   Category.ServiceUnavailable,
   Category.RequestedRangeNotSatisfiable,
   Category.RequestURITooLong,
   Category.RequestHeaderFieldsTooLarge,
   Category.RequestEntityTooLarge,
   Category.TooEarly,
   Category.ProxyAuthRequired,
   Category.PreconditionRequired,
   Category.PreconditionFailed,
   Category.PaymentRequired,
   Category.NotImplemented,
   Category.NotExtended,
   Category.NotAcceptable,
   Category.NetworkAuthenticationRequired,
   Category.MethodNotAllowed,
   Category.LoopDetected,
   Category.Locked,
   Category.LengthRequired,
   Category.InsufficientStorage,
   Category.HTTPVersionNotSupported,
   Category.Gone,
   Category.FailedDependency,
   Category.GatewayTimeout,
   Category.NotModified,
   Category.ExpectationFailed,
   Category.BadData,
   Category.BadRequest,
   Category.Conflict,
   Category.Forbidden,
   Category.InternalServerError,
   Category.NotFound,
   Category.Unauthorized]

/-- Body shared by all category operations: sendError with the fixed status. -/
def Category.call (marshal : Marshal) (pkg : Package) (cat : Category) (w : ResponseWriter)
    (err : GoError) : Outcome :=
  sendError marshal pkg w cat.status err

/-! ## Sequences of configuration calls -/

/-- A call of one of the two configuration functions. -/
inductive ConfigCall where
  | new (options : Options)
  | default
deriving DecidableEq, Repr

/-- Effect of one configuration call on the package variables. -/
def ConfigCall.apply (call : ConfigCall) (pkg : Package) : Package :=
  match call with
  | ConfigCall.new options => New options pkg
  | ConfigCall.default => Default pkg

/-- Effect of a sequence of configuration calls, oldest first. -/
def configure (calls : List ConfigCall) (pkg : Package) : Package :=
  calls.foldl (fun p call => call.apply p) pkg

/-- The non-nil SendFunction a configuration call supplies to New, if any. -/
def ConfigCall.supplied : ConfigCall → Option SendFunction
  | ConfigCall.new options => options.SendFunction
  | ConfigCall.default => none

/-- Following the wording of the specification: the most recent non-nil SendFunction
supplied to New, or the built-in JSON strategy if none was ever supplied. -/
def specSender (calls : List ConfigCall) : Sender :=
  match (calls.reverse.filterMap ConfigCall.supplied).head? with
  | some f => Sender.custom f
  | none => Sender.builtin

/-- The calls made on the response writer w, in order. -/
def writesOn (w : ResponseWriter) (trace : List Event) : List Event :=
  trace.filter (fun e =>
    match e with
    | Event.setHeader v _ _ => decide (v = w)
    | Event.writeHeader v _ => decide (v = w)
    | Event.write v _ => decide (v = w)
    | _ => false)

/-- The log entries of a trace, in order. -/
def logEntries (trace : List Event) : List (Logger × String) :=
  trace.filterMap (fun e =>
    match e with
    | Event.logPrintf l text => some (l, text)
    | _ => none)

/-- The send-function invocations of a trace, in order. -/
def sendCalls (trace : List Event) : List Event :=
  trace.filter (fun e =>
    match e with
    | Event.sendCall _ _ _ _ => true
    | _ => false)

/-! ## Helper lemmas -/

theorem New_send_of_nil (debug : Bool) (log : Option Logger) (pkg : Package) :
    (New ⟨debug, log, none⟩ pkg).send = pkg.send := by
  cases log <;> cases debug <;> rfl

theorem New_send_of_some (debug : Bool) (log : Option Logger) (f : SendFunction)
    (pkg : Package) :
    (New ⟨debug, log, some f⟩ pkg).send = some (Sender.custom f) := by
  cases log <;> cases debug <;> rfl

theorem Default_eq (pkg : Package) : Default pkg = pkg := rfl

theorem configure_append (calls : List ConfigCall) (call : ConfigCall) (pkg : Package) :
    configure (calls ++ [call]) pkg = call.apply (configure calls pkg) := by
  simp [configure, List.foldl_append]

theorem specSender_append (calls : List ConfigCall) (call : ConfigCall) :
    specSender (calls ++ [call]) =
      match call.supplied with
      | some f => Sender.custom f
      | none => specSender calls := by
  unfold specSender
  cases h : call.supplied <;> simp [List.filterMap_cons, h]

theorem configure_send (calls : List ConfigCall) :
    (configure calls initial).send = some (specSender calls) := by
  induction calls using List.reverseRecOn with
  | nil => rfl
  | append_singleton calls call ih =>
    rw [configure_append, specSender_append]
    cases call with
    | default =>
      simpa [ConfigCall.apply, ConfigCall.supplied, Default_eq] using ih
    | new options =>
      obtain ⟨debug, log, sf⟩ := options
      cases sf with
      | none => simpa [ConfigCall.apply, ConfigCall.supplied, New_send_of_nil] using ih
      | some f => simp [ConfigCall.apply, ConfigCall.supplied, New_send_of_some]

theorem logEntries_invoke (marshal : Marshal) (s : Sender) (w : ResponseWriter)
    (status : Int) (data : Error) :
    logEntries (s.invoke marshal w status data) = [] := by
  cases s with
  | custom f => rfl
  | builtin =>
    unfold Sender.invoke defaultSend
    cases marshal data <;> rfl

theorem encodeError_user_missing :
    encodeError ⟨404, "user missing"⟩ =
      "\x7b\"statusCode\":404,\"message\":\"user missing\"\x7d" := by
  decide

theorem formatLog_user_missing : formatLog 404 "user missing" = "404: user missing" := by
  decide

theorem encodeError_invalid_field :
    encodeError ⟨422, "invalid field"⟩ =
      "\x7b\"statusCode\":422,\"message\":\"invalid field\"\x7d" := by
  decide

theorem formatLog_invalid_field : formatLog 422 "invalid field" = "422: invalid field" := by
  decide

/-! ## Claims -/

/-- C1: with a logger l installed and the built-in send function active, every category
operation returns normally having logged once, then set the header Content-Type to
application/json on w, then written the status of the category, then written as body
the JSON object with statusCode first and message second, and nothing else; NotFound
with the message user missing gives status 404 and the body shown. -/
theorem category_builtin_response (cat : Category) (w : ResponseWriter) (err : GoError)
    (l : Logger) :
    (cat.call jsonMarshal ⟨some l, some Sender.builtin⟩ w err =
      Outcome.returned
        [Event.logPrintf l (formatLog cat.status err.Error),
         Event.setHeader w "Content-Type" "application/json",
         Event.writeHeader w cat.status,
         Event.write w ("\x7b\"statusCode\":" ++ itoa cat.status ++ ",\"message\":" ++
           quoteString err.Error ++ "\x7d")]) ∧
    jsonMarshal ⟨cat.status, err.Error⟩ =
      Except.ok ("\x7b\"statusCode\":" ++ itoa cat.status ++ ",\"message\":" ++
        quoteString err.Error ++ "\x7d") ∧
    Category.NotFound.call jsonMarshal ⟨some l, some Sender.builtin⟩ w
        (errorsNew "user missing") =
      Outcome.returned
        [Event.logPrintf l "404: user missing",
         Event.setHeader w "Content-Type" "application/json",
         Event.writeHeader w 404,
         Event.write w "\x7b\"statusCode\":404,\"message\":\"user missing\"\x7d"] := by
  refine ⟨rfl, rfl, ?_⟩
  show Outcome.returned
        [Event.logPrintf l (formatLog 404 "user missing"),
         Event.setHeader w "Content-Type" "application/json",
         Event.writeHeader w 404,
         Event.write w (encodeError ⟨404, "user missing"⟩)] = _
  rw [encodeError_user_missing, formatLog_user_missing]

/-- C2: there are exactly 36 category operations; each of them is a call of sendError
with the same package state, writer and error and with one fixed status code, the number
in the doc comment of the operation; these codes are pairwise distinct and sorted they
are exactly the listed 36 numbers; BadRequest passes 400, NotFound 404, BadData 422 and
ServiceUnavailable 503 to sendError, and BadData with the message invalid field writes
the status 422. -/
theorem category_status_table :
    (∀ (marshal : Marshal) (pkg : Package) (cat : Category) (w : ResponseWriter)
        (err : GoError),
      cat.call marshal pkg w err = sendError marshal pkg w cat.docStatus err) ∧
    (∀ (marshal : Marshal) (pkg : Package) (w : ResponseWriter) (err : GoError),
      Category.BadRequest.call marshal pkg w err = sendError marshal pkg w 400 err ∧
      Category.NotFound.call marshal pkg w err = sendError marshal pkg w 404 err ∧
      Category.BadData.call marshal pkg w err = sendError marshal pkg w 422 err ∧
      Category.ServiceUnavailable.call marshal pkg w err =
        sendError marshal pkg w 503 err) ∧
    (∀ (l : Logger) (w : ResponseWriter),
      Category.BadData.call jsonMarshal ⟨some l, some Sender.builtin⟩ w
          (errorsNew "invalid field") =
        Outcome.returned
          [Event.logPrintf l "422: invalid field",
           Event.setHeader w "Content-Type" "application/json",
           Event.writeHeader w 422,
           Event.write w "\x7b\"statusCode\":422,\"message\":\"invalid field\"\x7d"]) ∧
    allCategories.length = 36 ∧
    allCategories.Nodup ∧
    (∀ cat : Category, cat ∈ allCategories) ∧
    (∀ a b : Category, a.status = b.status → a = b) ∧
    (allCategories.map Category.status).insertionSort (fun a b : Int => a ≤ b) =
      [304, 400, 401, 402, 403, 404, 405, 406, 407, 409, 410, 411, 412, 413, 414, 415,
       416, 417, 422, 423, 424, 425, 426, 428, 431, 451, 500, 501, 503, 504, 505, 506,
       507, 508, 510, 511] ∧
    (∀ cat : Category, cat.status = cat.docStatus) ∧
    Category.BadRequest.status = 400 ∧
    Category.NotFound.status = 404 ∧
    Category.BadData.status = 422 ∧
    Category.ServiceUnavailable.status = 503 := by
  refine ⟨?_, ?_, ?_, rfl, by decide, by decide, by decide, by decide, by decide,
    rfl, rfl, rfl, rfl⟩
  · intro marshal pkg cat w err
    cases cat <;> rfl
  · intro marshal pkg w err
    exact ⟨rfl, rfl, rfl, rfl⟩
  · intro l w
    show Outcome.returned
          [Event.logPrintf l (formatLog 422 "invalid field"),
           Event.setHeader w "Content-Type" "application/json",
           Event.writeHeader w 422,
           Event.write w (encodeError ⟨422, "invalid field"⟩)] = _
    rw [encodeError_invalid_field, formatLog_invalid_field]

/-- C3, the code at the failing input: after New installed the logger user 1 and the
send function 7, Default() leaves both in place, so the package is not in the built-in
state its doc comment announces, and a following NotFound call logs to user 1 and calls
function 7 instead of writing the JSON response. -/
theorem Default_after_New_not_builtin :
    (Default (New ⟨false, some (Logger.user 1), some ⟨7⟩⟩ initial)).send =
      some (Sender.custom ⟨7⟩) ∧
    (Default (New ⟨false, some (Logger.user 1), some ⟨7⟩⟩ initial)).logger =
      some (Logger.user 1) ∧
    ¬ ((Default (New ⟨false, some (Logger.user 1), some ⟨7⟩⟩ initial)).send =
        some Sender.builtin ∧
       (Default (New ⟨false, some (Logger.user 1), some ⟨7⟩⟩ initial)).logger = none) ∧
    Category.NotFound.call jsonMarshal
        (Default (New ⟨false, some (Logger.user 1), some ⟨7⟩⟩ initial)) ⟨0⟩
        (errorsNew "user missing") =
      Outcome.returned
        [Event.logPrintf (Logger.user 1) "404: user missing",
         Event.sendCall ⟨7⟩ ⟨0⟩ 404 ⟨404, "user missing"⟩] := by
  refine ⟨rfl, rfl, by decide, ?_⟩
  show Outcome.returned
        [Event.logPrintf (Logger.user 1) (formatLog 404 "user missing"),
         Event.sendCall ⟨7⟩ ⟨0⟩ 404 ⟨404, "user missing"⟩] = _
  rw [formatLog_user_missing]

/-- C4, the code at the failing input: New(Options with Debug true and no Log) on the
initial state leaves logger nil, and a following NotFound call panics before it logs or
sends anything. -/
theorem New_debug_without_log_keeps_nil_logger (w : ResponseWriter) (err : GoError) :
    (New ⟨true, none, none⟩ initial).logger = none ∧
    (New ⟨true, none, none⟩ initial).logger ≠ some logDefault ∧
    Category.NotFound.call jsonMarshal (New ⟨true, none, none⟩ initial) w err =
      Outcome.panicked [] :=
  ⟨rfl, by decide, rfl⟩

/-- C5, the code at the failing input: with no logger configured (as in the initial
state) every category operation panics on the nil logger before it builds the record,
and the send function is never invoked. -/
theorem category_without_logger_panics (marshal : Marshal) (send : Option Sender)
    (cat : Category) (w : ResponseWriter) (err : GoError) :
    cat.call marshal ⟨none, send⟩ w err = Outcome.panicked [] ∧
    cat.call marshal initial w err = Outcome.panicked [] ∧
    cat.call marshal (New ⟨false, none, none⟩ initial) w err = Outcome.panicked [] :=
  ⟨rfl, rfl, rfl⟩

/-- C6: after New with a non-nil SendFunction f and no Log, a category call made with a
logger l installed returns normally having invoked f exactly once, with the writer, the
status of the category and the record of that status and the error message; the
built-in function makes no call on w. -/
theorem category_routes_to_custom_send (marshal : Marshal) (f : SendFunction)
    (pkg : Package) (l : Logger) (hl : pkg.logger = some l) (cat : Category)
    (w : ResponseWriter) (err : GoError) :
    cat.call marshal (New ⟨false, none, some f⟩ pkg) w err =
      Outcome.returned
        [Event.logPrintf l (formatLog cat.status err.Error),
         Event.sendCall f w cat.status ⟨cat.status, err.Error⟩] ∧
    sendCalls [Event.logPrintf l (formatLog cat.status err.Error),
         Event.sendCall f w cat.status ⟨cat.status, err.Error⟩] =
      [Event.sendCall f w cat.status ⟨cat.status, err.Error⟩] ∧
    writesOn w [Event.logPrintf l (formatLog cat.status err.Error),
         Event.sendCall f w cat.status ⟨cat.status, err.Error⟩] = [] := by
  obtain ⟨lg, sd⟩ := pkg
  simp only at hl
  subst hl
  exact ⟨rfl, rfl, rfl⟩

/-- Witness of C6 at the logger std, the send function 7 and NotFound. -/
theorem category_routes_to_custom_send_witness :
    Category.NotFound.call jsonMarshal
        (New ⟨false, none, some ⟨7⟩⟩ ⟨some Logger.std, some Sender.builtin⟩) ⟨0⟩
        (errorsNew "user missing") =
      Outcome.returned
        [Event.logPrintf Logger.std (formatLog 404 "user missing"),
         Event.sendCall ⟨7⟩ ⟨0⟩ 404 ⟨404, "user missing"⟩] :=
  (category_routes_to_custom_send jsonMarshal ⟨7⟩ ⟨some Logger.std, some Sender.builtin⟩
    Logger.std rfl Category.NotFound ⟨0⟩ (errorsNew "user missing")).1

/-- C7: in every configuration reached from the initial state, after New with Log l and
Debug false a category call returns normally; its first event is the log entry on l with
the text of the decimal status, a colon, a blank and the error message; the events of
the active send function follow it; and that entry is the only log entry. -/
theorem category_logs_once_before_send (marshal : Marshal) (calls : List ConfigCall)
    (l : Logger) (sf : Option SendFunction) (cat : Category) (w : ResponseWriter)
    (err : GoError) :
    ∃ s : Sender,
      (New ⟨false, some l, sf⟩ (configure calls initial)).send = some s ∧
      cat.call marshal (New ⟨false, some l, sf⟩ (configure calls initial)) w err =
        Outcome.returned
          (Event.logPrintf l (itoa cat.status ++ ": " ++ err.Error) ::
            s.invoke marshal w cat.status ⟨cat.status, err.Error⟩) ∧
      logEntries
          (Event.logPrintf l (itoa cat.status ++ ": " ++ err.Error) ::
            s.invoke marshal w cat.status ⟨cat.status, err.Error⟩) =
        [(l, itoa cat.status ++ ": " ++ err.Error)] := by
  have hsend := configure_send calls
  cases sf with
  | some f =>
    refine ⟨Sender.custom f, rfl, rfl, rfl⟩
  | none =>
    refine ⟨specSender calls, ?_, ?_, ?_⟩
    · show (configure calls initial).send = _
      exact hsend
    · show sendError marshal ⟨some l, (configure calls initial).send⟩ w cat.status err = _
      rw [hsend]
      rfl
    · show (l, _) :: logEntries _ = _
      rw [logEntries_invoke]

/-- C8: after New with Debug true and a non-nil Log l, the active logger is the logger of
log.Default() whatever l is, and so it is not l when l is another logger. -/
theorem New_debug_overrides_log (l : Logger) (sf : Option SendFunction) (pkg : Package) :
    (New ⟨true, some l, sf⟩ pkg).logger = some logDefault ∧
    (l ≠ logDefault → (New ⟨true, some l, sf⟩ pkg).logger ≠ some l) := by
  have h : (New ⟨true, some l, sf⟩ pkg).logger = some logDefault := by
    cases sf <;> rfl
  refine ⟨h, fun hne heq => hne ?_⟩
  rw [h] at heq
  exact (Option.some.inj heq).symm

/-- Witness of C8 at the logger user 1 on the initial state. -/
theorem New_debug_overrides_log_witness :
    (New ⟨true, some (Logger.user 1), none⟩ initial).logger = some logDefault ∧
    (New ⟨true, some (Logger.user 1), none⟩ initial).logger ≠ some (Logger.user 1) :=
  ⟨(New_debug_overrides_log (Logger.user 1) none initial).1,
   (New_debug_overrides_log (Logger.user 1) none initial).2 (by decide)⟩

/-- C9: after any finite sequence of New and Default calls from the initial state the
variable send is not nil; it holds the most recent non-nil SendFunction supplied to New,
or the built-in function if none was supplied; and New with a nil SendFunction leaves
send as it was. -/
theorem send_never_unset (calls : List ConfigCall) :
    (configure calls initial).send ≠ none ∧
    (configure calls initial).send = some (specSender calls) ∧
    (∀ (debug : Bool) (log : Option Logger) (pkg : Package),
      (New ⟨debug, log, none⟩ pkg).send = pkg.send) := by
  refine ⟨?_, configure_send calls, New_send_of_nil⟩
  rw [configure_send calls]
  exact Option.some_ne_none _

/-- C10: the built-in send function returns the failure of the serializer and makes no
call on w when serialization fails, and returns no failure when it succeeds; with
json.Marshal on an Error record it returns no failure. -/
theorem defaultSend_failure_writes_nothing (marshal : Marshal) (w : ResponseWriter)
    (status : Int) (data : Error) :
    (∀ e : String, marshal data = Except.error e →
      defaultSend marshal w status data = (some e, [])) ∧
    (∀ js : String, marshal data = Except.ok js →
      (defaultSend marshal w status data).1 = none) ∧
    (defaultSend jsonMarshal w status data).1 = none := by
  refine ⟨?_, ?_, rfl⟩
  · intro e he
    unfold defaultSend
    rw [he]
  · intro js hjs
    unfold defaultSend
    rw [hjs]

/-- Witness of C10 at a serializer that fails and at one that succeeds. -/
theorem defaultSend_failure_writes_nothing_witness :
    defaultSend (fun _ => Except.error "unsupported type") ⟨0⟩ 500 ⟨500, "boom"⟩ =
      (some "unsupported type", []) ∧
    (defaultSend (fun _ => Except.ok "null") ⟨0⟩ 500 ⟨500, "boom"⟩).1 = none :=
  ⟨(defaultSend_failure_writes_nothing (fun _ => Except.error "unsupported type") ⟨0⟩ 500
      ⟨500, "boom"⟩).1 "unsupported type" rfl,
   (defaultSend_failure_writes_nothing (fun _ => Except.ok "null") ⟨0⟩ 500
      ⟨500, "boom"⟩).2.1 "null" rfl⟩

end Explerror
